import Mathlib

/-!
Shallow embedding of `streamlit_app.py` (Maui itinerary planner).

External services (the language-model chat endpoint and the SerpAPI search
endpoint) are modelled as oracles: functions from the request (prompt string,
attempt index) to the observed outcome.  `none` for an oracle outcome models
the Python call raising an exception (transport error or, where the code
parses the reply inside the same `try` block, a JSON failure).  All other
logic — validation, fallbacks, retry loops, cache keys, session state — is
translated directly from the source.
-/

set_option autoImplicit false

/-- ASCII whitespace characters stripped by the Python method `str.strip()`. -/
def isPySpace (c : Char) : Bool :=
  c = ' ' || c = '\t' || c = '\n' || c = '\r' || c = '\x0b' || c = '\x0c'

/-- Remove leading whitespace from a character list. -/
def lstripL (l : List Char) : List Char :=
  l.dropWhile isPySpace

/-- Remove trailing whitespace from a character list. -/
def rstripL (l : List Char) : List Char :=
  (l.reverse.dropWhile isPySpace).reverse

/-- The Python method `str.strip()` (default arguments, ASCII whitespace). -/
def pstrip (s : String) : String :=
  ⟨rstripL (lstripL s.data)⟩

/-- Calendar date, as the Python type `datetime.date`. -/
structure Date where
  year : Nat
  month : Nat
  day : Nat
deriving DecidableEq, Repr

/-- Python `date` comparison is lexicographic on (year, month, day). -/
def dateLt (a b : Date) : Prop :=
  a.year < b.year ∨ (a.year = b.year ∧
    (a.month < b.month ∨ (a.month = b.month ∧ a.day < b.day)))

instance (a b : Date) : Decidable (dateLt a b) := by
  unfold dateLt; infer_instance

/-- Zero-pad a numeral to two digits, as in ISO date formatting. -/
def pad2 (n : Nat) : String :=
  if n < 10 then "0" ++ toString n else toString n

/-- Zero-pad a numeral to four digits, as in ISO date formatting. -/
def pad4 (n : Nat) : String :=
  if n < 10 then "000" ++ toString n
  else if n < 100 then "00" ++ toString n
  else if n < 1000 then "0" ++ toString n
  else toString n

/-- Python `str(date)`: ISO format YYYY-MM-DD. -/
def dateStr (d : Date) : String :=
  pad4 d.year ++ "-" ++ pad2 d.month ++ "-" ++ pad2 d.day

/-- JSON values, the shape `json.loads` can produce. -/
inductive Json where
  | null : Json
  | bool : Bool → Json
  | num : Int → Json
  | str : String → Json
  | arr : List Json → Json
  | obj : List (String × Json) → Json

/-- Whether a JSON value is a string (Python `isinstance(x, str)`). -/
def Json.isStr : Json → Bool
  | Json.str _ => true
  | _ => false

/-- The question appended by the app itself (line 50 / fallback line 57). -/
def hotelQuestion : String := "Which hotel are you staying at?"

/-- The hard-coded fallback question list of `get_questions` (lines 53-58). -/
def questionFallback : List Json :=
  [ Json.str "What excites you most about traveling there?",
    Json.str "What sort of dining do you enjoy?",
    Json.str "Do you have any must-do activities (like hiking or snorkeling)?",
    Json.str hotelQuestion ]

/-- Embedding of `get_questions` (lines 25-58).  `reply` is the oracle outcome of the
try-block through `json.loads` (lines 36-46): `none` when the chat call or
the parse raised, `some j` for the parsed reply.  The code checks only that
the parse result is a list of exactly three elements (line 47) — element
types are not validated — then appends the hotel question (line 50); any
failure falls back to the static list. -/
def get_questions (reply : Option Json) : List Json :=
  match reply with
  | some (Json.arr qs) =>
      if qs.length = 3 then qs ++ [Json.str hotelQuestion]
      else questionFallback
  | some _ => questionFallback
  | none => questionFallback

/-- One entry of `organic_results` in a SerpAPI response: the fields
`gather_rag_data` reads (lines 164-167), each possibly absent. -/
structure OrganicItem where
  title : Option String
  link : Option String
  snippet : Option String
deriving DecidableEq

/-- One entry of `local_results.places`: the fields the app reads
(lines 180-185, 383-388) plus `phone`, which SerpAPI may supply but which
no line of the app ever reads (docstring line 123: "No phone numbers"). -/
structure LocalItem where
  title : Option String
  rating : Option String
  reviews : Option String
  address : Option String
  website : Option String
  link : Option String
  phone : Option String
deriving DecidableEq

/-- The `local_results` object; the app only reads its `places` key with
default `[]` (lines 178, 381). -/
structure LocalResults where
  places : Option (List LocalItem)
deriving DecidableEq

/-- A raw SerpAPI response as consumed by the app: optional
`organic_results` and optional `local_results`. -/
structure SerpResult where
  organic_results : Option (List OrganicItem)
  local_results : Option LocalResults
deriving DecidableEq

/-- The empty dict `{}` returned on failure paths (lines 111, 126, 143). -/
def emptySerp : SerpResult :=
  { organic_results := none, local_results := none }

/-- Outcome of one `requests.get` attempt against SerpAPI: `none` when the
request (or `resp.json()`) raised, `some (status, body)` for a response
with HTTP status `status` and parsed body `body`. -/
def SerpAttempt : Type := Option (Nat × SerpResult)

/-- The retry loop of `fetch_serpapi_data` (lines 135-143): `env i` is the
outcome of attempt `i`; `fuel` is the number of attempts left.  Returns the
result together with the number of requests actually issued.  A 200
response returns its body at once; any other status or an exception falls
through to the next attempt; exhausted attempts yield `{}`. -/
def fetch_try (env : Nat → SerpAttempt) (i : Nat) : Nat → SerpResult × Nat
  | 0 => (emptySerp, 0)
  | Nat.succ fuel =>
      match env i with
      | some (status, body) =>
          if status = 200 then (body, 1)
          else
            let r := fetch_try env (i + 1) fuel
            (r.1, r.2 + 1)
      | none =>
          let r := fetch_try env (i + 1) fuel
          (r.1, r.2 + 1)

/-- Embedding of `fetch_serpapi_data` (lines 118-143): with no credential it returns `{}`
without touching the network (lines 125-126); otherwise it runs the retry
loop (`retries` defaults to 3 at every call site).  The second component
counts outbound search-service requests. -/
def fetch_serpapi_data (key : Option String) (env : Nat → SerpAttempt)
    (retries : Nat) : SerpResult × Nat :=
  match key with
  | none => (emptySerp, 0)
  | some _ => fetch_try env 0 retries

/-- The static fallback queries of `hidden_search_for_more_ideas`
(lines 98-102). -/
def fallbackQueries (location : String) : List String :=
  [ s!"Dining in {location}",
    s!"Must-see events in {location}",
    s!"Fun outdoor activities in {location}" ]

/-- The `user_context` prompt of `hidden_search_for_more_ideas`
(lines 71-80). -/
def searchPrompt (a1 a2 a3 a4 : String) (trip_start trip_end : Date)
    (location : String) : String :=
  s!"Location: {location}\n" ++
  s!"Trip Dates: {dateStr trip_start} to {dateStr trip_end}\n" ++
  "Preferences:\n" ++
  s!"1) {a1}\n" ++
  s!"2) {a2}\n" ++
  s!"3) {a3}\n" ++
  s!"Hotel: {a4}\n" ++
  "Return only \x7b\"search_queries\": [\"...\"]\x7d."

/-- The value of `search_queries` after lines 83-102: the oracle `gpt`
maps the prompt to the outcome of the try block through
`data.get("search_queries", [])` (`none` models the block raising, which
triggers the static fallback). -/
def proposedQueries (gpt : String → Option (List String))
    (a1 a2 a3 a4 : String) (trip_start trip_end : Date)
    (location : String) : List String :=
  match gpt (searchPrompt a1 a2 a3 a4 trip_start trip_end location) with
  | some qs => qs
  | none => fallbackQueries location

/-- The `{search_queries, search_results}` value built by
`hidden_search_for_more_ideas` (lines 104-116).  `search_results` models the
`results` dict as an association list in insertion order. -/
structure SearchData where
  search_queries : List String
  search_results : List (String × SerpResult)
deriving DecidableEq

/-- First-match association-list lookup, modelling Python dict access.
(The app writes each key once per distinct query string; duplicate queries
are refetched from the same per-query environment, so first and last
occurrence agree.) -/
def slookup {α : Type} (k : String) : List (String × α) → Option α
  | [] => none
  | (k', v) :: rest => if k' = k then some v else slookup k rest

/-- Embedding of `hidden_search_for_more_ideas` (lines 60-116).  `gpt` is the
language-model oracle, `serpEnv q` the per-query sequence of SerpAPI
attempt outcomes.  The second component counts outbound search-service
requests. -/
def hidden_search_for_more_ideas (serpKey : Option String)
    (gpt : String → Option (List String))
    (serpEnv : String → Nat → SerpAttempt)
    (a1 a2 a3 a4 : String) (trip_start trip_end : Date)
    (location : String) : SearchData × Nat :=
  let queries := proposedQueries gpt a1 a2 a3 a4 trip_start trip_end location
  match serpKey with
  | some k =>
      let fetched := queries.map (fun q => (q, fetch_serpapi_data (some k) (serpEnv q) 3))
      ({ search_queries := queries,
         search_results := fetched.map (fun p => (p.1, p.2.1)) },
       (fetched.map (fun p => p.2.2)).sum)
  | none =>
      ({ search_queries := queries,
         search_results := queries.map (fun q => (q, emptySerp)) }, 0)

/-- Python string slicing `s[:n]`: the first `n` characters. -/
def ptake (n : Nat) (s : String) : String :=
  ⟨s.data.take n⟩

/-- The bullet built from one organic result (lines 164-174): title, link,
and the snippet truncated to 120 characters. -/
def organicLine (item : OrganicItem) : String :=
  let title := item.title.getD "Untitled"
  let link := item.link.getD ""
  let snip := ptake 120 (item.snippet.getD "")
  s!"- Title: {title}\n  Link: {link}\n  Snippet: {snip}..."

/-- The bullet built from one local result (lines 179-192): title, link
(`website` preferred over `link`), rating, reviews, and address.  The
`phone` field is never read. -/
def localLine (item : LocalItem) : String :=
  let title := item.title.getD "Untitled"
  let rating := item.rating.getD "No rating"
  let reviews := item.reviews.getD "No reviews info"
  let address := item.address.getD "No address"
  let link := item.website.getD (item.link.getD "")
  s!"- Local: {title}\n  Link: {link}\n  Rating: {rating}, Reviews: {reviews}\n  Address: {address}"

/-- The bullets contributed by one query (lines 159-192): up to 3 organic
results, then up to 3 local places. -/
def queryLines (results : List (String × SerpResult)) (q : String) : List String :=
  let data := (slookup q results).getD emptySerp
  let org :=
    match data.organic_results with
    | some items => (items.take 3).map organicLine
    | none => []
  let loc :=
    match data.local_results with
    | some lr => ((lr.places.getD []).take 3).map localLine
    | none => []
  org ++ loc

/-- All bullets of the RAG block, in query order (lines 158-192). -/
def ragLines (d : SearchData) : List String :=
  d.search_queries.flatMap (queryLines d.search_results)

/-- The Python expression `"\n".join`. -/
def joinLines : List String → String
  | [] => ""
  | [s] => s
  | s :: rest => s ++ "\n" ++ joinLines rest

/-- Embedding of `gather_rag_data` (lines 145-196). -/
def gather_rag_data (d : SearchData) : String :=
  if d.search_queries = [] then "(No extra data found.)"
  else
    let lines := ragLines d
    if lines = [] then "(No extra data found.)"
    else joinLines lines

/-- The `user_input` prompt of `generate_itinerary` (lines 212-226),
embedding the RAG snippet. -/
def itineraryPrompt (a1 a2 a3 a4 : String) (trip_start trip_end : Date)
    (location : String) (all_search_data : SearchData) : String :=
  let rag := gather_rag_data all_search_data
  s!"Location: {location}\n" ++
  s!"Trip Dates: {dateStr trip_start} to {dateStr trip_end}\n" ++
  "Preferences:\n" ++
  s!"1) {a1}\n" ++
  s!"2) {a2}\n" ++
  s!"3) {a3}\n" ++
  s!"Hotel: {a4}\n\n" ++
  "Here is extra data from search results (RAG). Each item has a title, link, snippet, rating, etc.:\n\n" ++
  s!"{rag}\n\n" ++
  "Please create a short day-by-day plan. If you mention any place/event from the snippet, \n" ++
  "MUST include its link in Markdown (e.g., [Place Title](link)). \n"

/-- Embedding of `generate_itinerary` (lines 198-240): one language-model call on the
built prompt; the trimmed reply on success, `None` when the call raised
(lines 228-240).  `llm` maps the prompt to the reply content, `none`
modelling an exception. -/
def generate_itinerary (llm : String → Option String)
    (a1 a2 a3 a4 : String) (trip_start trip_end : Date) (location : String)
    (all_search_data : SearchData) : Option String :=
  match llm (itineraryPrompt a1 a2 a3 a4 trip_start trip_end location all_search_data) with
  | some content => some (pstrip content)
  | none => none

/-- The `user_ans_tuple` cache key (lines 286-294): stripped answers,
stringified dates, stripped location. -/
structure UserKey where
  a1 : String
  a2 : String
  a3 : String
  a4 : String
  sdate : String
  edate : String
  loc : String
deriving DecidableEq

/-- Build the cache key exactly as lines 286-294 do. -/
def mkKey (a1 a2 a3 a4 : String) (sd ed : Date) (loc : String) : UserKey :=
  { a1 := pstrip a1, a2 := pstrip a2, a3 := pstrip a3, a4 := pstrip a4,
    sdate := dateStr sd, edate := dateStr ed, loc := pstrip loc }

/-- First-match lookup in the session cache dict (keys are written at most
once, so first match is the dict entry). -/
def klookup (k : UserKey) : List (UserKey × SearchData) → Option SearchData
  | [] => none
  | (k', v) :: rest => if k' = k then some v else klookup k rest

/-- The session state the submit handler touches (lines 249-253):
`st.session_state.cached_search_data` and `st.session_state.itinerary_text`. -/
structure AppState where
  cached_search_data : List (UserKey × SearchData)
  itinerary_text : Option String

/-- Inputs of one submission: the four answers, the dates, the location, and
the environment (credential and oracles) the outbound calls would see. -/
structure SubmitInput where
  a1 : String
  a2 : String
  a3 : String
  a4 : String
  start_date : Date
  end_date : Date
  location : String
  serpKey : Option String
  gpt : String → Option (List String)
  serpEnv : String → Nat → SerpAttempt
  llm : String → Option String

/-- How a submission ended: date-validation error (line 284), composer
failure (line 317), or success (lines 319-320). -/
inductive SubmitOutcome where
  | dateError : SubmitOutcome
  | composeError : SubmitOutcome
  | success : SubmitOutcome
deriving DecidableEq

/-- Observable effect of one submit: the new session state, how many times
the gatherer ran, how many search-service requests went out, how many times
the composer ran, and the search data handed to the composer. -/
structure SubmitResult where
  state : AppState
  gatherCalls : Nat
  serpCalls : Nat
  composeCalls : Nat
  usedSearchData : Option SearchData
  outcome : SubmitOutcome

/-- The `user_ans_tuple` built by one submission (lines 286-294). -/
def submitKey (inp : SubmitInput) : UserKey :=
  mkKey inp.a1 inp.a2 inp.a3 inp.a4 inp.start_date inp.end_date inp.location

/-- Lines 296-305: reuse the cache entry for the key, or run the gatherer
once and store its value.  Returns the updated cache together with the
number of gatherer invocations and of outbound search-service requests. -/
def ensureCache (st : AppState) (inp : SubmitInput) :
    List (UserKey × SearchData) × Nat × Nat :=
  match klookup (submitKey inp) st.cached_search_data with
  | some _ => (st.cached_search_data, 0, 0)
  | none =>
      let r := hidden_search_for_more_ideas inp.serpKey inp.gpt inp.serpEnv
        (pstrip inp.a1) (pstrip inp.a2) (pstrip inp.a3) (pstrip inp.a4)
        inp.start_date inp.end_date (pstrip inp.location)
      (st.cached_search_data ++ [(submitKey inp, r.1)], 1, r.2)

/-- Line 308: `search_data_for_ai`, read back from the (just filled)
cache.  The default is unreachable: the key is always present. -/
def submitSearchData (st : AppState) (inp : SubmitInput) : SearchData :=
  (klookup (submitKey inp) (ensureCache st inp).1).getD
    { search_queries := [], search_results := [] }

/-- The `plan_btn` submit handler (lines 282-320): date check, cache
lookup/fill for the supplemental search data, then one unconditional
composer call whose failure leaves `itinerary_text` unchanged. -/
def submit (st : AppState) (inp : SubmitInput) : SubmitResult :=
  if dateLt inp.end_date inp.start_date then
    { state := st, gatherCalls := 0, serpCalls := 0, composeCalls := 0,
      usedSearchData := none, outcome := SubmitOutcome.dateError }
  else
    match generate_itinerary inp.llm (pstrip inp.a1) (pstrip inp.a2) (pstrip inp.a3)
      (pstrip inp.a4) inp.start_date inp.end_date (pstrip inp.location)
      (submitSearchData st inp) with
    | none =>
        { state := { st with cached_search_data := (ensureCache st inp).1 },
          gatherCalls := (ensureCache st inp).2.1, serpCalls := (ensureCache st inp).2.2,
          composeCalls := 1,
          usedSearchData := some (submitSearchData st inp),
          outcome := SubmitOutcome.composeError }
    | some t =>
        { state := { cached_search_data := (ensureCache st inp).1, itinerary_text := some t },
          gatherCalls := (ensureCache st inp).2.1, serpCalls := (ensureCache st inp).2.2,
          composeCalls := 1,
          usedSearchData := some (submitSearchData st inp),
          outcome := SubmitOutcome.success }

/-- Run a sequence of submissions, threading the session state. -/
def runSubmits (st : AppState) (reqs : List SubmitInput) : AppState :=
  reqs.foldl (fun s i => (submit s i).state) st

/-! ## Question generator (claims C3, C9) -/

/-- A reply that passes the line-47 validation: a JSON list of exactly
three elements. -/
def validThreeList (reply : Option Json) : Prop :=
  ∃ qs, reply = some (Json.arr qs) ∧ qs.length = 3

/-- Every path of `get_questions` yields four elements: three accepted (or
fallback) questions plus the appended hotel question. -/
lemma get_questions_length (reply : Option Json) :
    (get_questions reply).length = 4 := by
  cases reply with
  | none => rfl
  | some j =>
    cases j <;> try rfl
    case arr qs =>
      by_cases h : qs.length = 3
      · simp [get_questions, h]
      · simp [get_questions, h]; rfl

/-- C3 counterexample: the generator output and its hard-coded fallback
have four elements, not three — already on the plain transport-error path
the returned list has length 4. -/
theorem c3_fallback_counterexample :
    get_questions none = questionFallback ∧ questionFallback.length ≠ 3 := by
  exact ⟨rfl, by decide⟩

/-- C3 (amended): the question generator returns a sequence of exactly 4
elements (the hotel question is appended); on any parse failure, validation
failure or transport error it returns the fixed hard-coded 4-element
fallback list, in a single attempt and without raising. -/
theorem c3_generator_fallback (reply : Option Json) :
    (get_questions reply).length = 4 ∧
    (¬ validThreeList reply → get_questions reply = questionFallback) := by
  refine ⟨get_questions_length reply, ?_⟩
  intro hnv
  cases reply with
    | none => rfl
    | some j =>
      cases j <;> try rfl
      case arr qs =>
        by_cases h : qs.length = 3
        · exact absurd ⟨qs, rfl, h⟩ hnv
        · simp [get_questions, h]

/-- C3 witness: at the concrete transport-error reply the hypotheses hold
and the fallback is returned with 4 elements. -/
theorem c3_generator_fallback_witness :
    (get_questions none).length = 4 ∧ get_questions none = questionFallback := by
  have hnv : ¬ validThreeList none := by
    rintro ⟨qs, h, -⟩; cases h
  exact ⟨(c3_generator_fallback none).1, (c3_generator_fallback none).2 hnv⟩

/-- C9 counterexample: a syntactically valid model reply whose three
elements are numbers is accepted unvalidated, so the returned list is not a
list of 4 strings. -/
theorem c9_nonstring_counterexample :
    (get_questions (some (Json.arr [Json.num 1, Json.num 2, Json.num 3]))).all Json.isStr
      = false ∧
    (get_questions (some (Json.arr [Json.num 1, Json.num 2, Json.num 3]))).length = 4 := by
  exact ⟨rfl, rfl⟩

/-- C9 (amended): on every path — model reply accepted or fallback —
`get_questions` returns a list of exactly 4 elements whose element at index
3 is the literal hotel question (the first three elements are not validated
to be strings). -/
theorem c9_fourth_question_hotel (reply : Option Json) :
    (get_questions reply).length = 4 ∧
    (get_questions reply)[3]? = some (Json.str hotelQuestion) := by
  refine ⟨(c3_generator_fallback reply).1, ?_⟩
  cases reply with
  | none => rfl
  | some j =>
    cases j <;> try rfl
    case arr qs =>
      by_cases h : qs.length = 3
      · simp [get_questions, h, List.getElem?_append_right]
      · simp [get_questions, h]; rfl

/-! ## Search-service fetch (claims C4, C7) -/

/-- A failed attempt: the request raised, or the response status was not
200 (both are retried, line 138 / lines 140-141). -/
def attemptFails (a : SerpAttempt) : Prop :=
  ∀ s b, a = some (s, b) → s ≠ 200

/-- If every attempt in the window fails, the retry loop exhausts its fuel,
issues one request per attempt, and yields the empty result. -/
lemma fetch_try_all_fail (env : Nat → SerpAttempt) (i fuel : Nat)
    (h : ∀ j, j < fuel → attemptFails (env (i + j))) :
    fetch_try env i fuel = (emptySerp, fuel) := by
  induction fuel generalizing i with
  | zero => rfl
  | succ fuel ih =>
    have hih : fetch_try env (i + 1) fuel = (emptySerp, fuel) := by
      apply ih
      intro j hj
      have := h (j + 1) (by omega)
      simpa [Nat.add_assoc, Nat.add_comm 1 j] using this
    have h0 := h 0 (by omega)
    simp only [Nat.add_zero] at h0
    cases henv : env i with
    | none => simp [fetch_try, henv, hih]
    | some sb =>
      obtain ⟨s, b⟩ := sb
      have hs : s ≠ 200 := h0 s b henv
      simp [fetch_try, henv, hs, hih]

/-- C4: when all of the up-to-3 attempts for one query fail (non-200 status
or a raised exception), `fetch_serpapi_data` returns the empty result
object after exactly 3 outbound requests, and it is total (never raises). -/
theorem c4_fetch_exhausted_retries (k : String) (env : Nat → SerpAttempt)
    (h : ∀ i, i < 3 → attemptFails (env i)) :
    fetch_serpapi_data (some k) env 3 = (emptySerp, 3) := by
  have := fetch_try_all_fail env 0 3 (by simpa using h)
  simpa [fetch_serpapi_data] using this

/-- C4 witness: three consecutive 500 responses yield the empty result
object for that query. -/
theorem c4_fetch_exhausted_retries_witness :
    fetch_serpapi_data (some "key") (fun _ => some (500, emptySerp)) 3 = (emptySerp, 3) := by
  apply c4_fetch_exhausted_retries
  intro i _ s b hsb
  injection hsb with hsb'
  injection hsb' with h1 h2
  omega

/-- C7: with no search-service credential configured, the gatherer makes no
network request (0 outbound calls), still returns the proposed query list,
and maps every proposed query to the empty result object. -/
theorem c7_no_credential_short_circuit (gpt : String → Option (List String))
    (serpEnv : String → Nat → SerpAttempt) (a1 a2 a3 a4 : String)
    (trip_start trip_end : Date) (location : String) :
    (hidden_search_for_more_ideas none gpt serpEnv a1 a2 a3 a4 trip_start trip_end location).2
      = 0 ∧
    (hidden_search_for_more_ideas none gpt serpEnv a1 a2 a3 a4 trip_start trip_end location).1.search_queries
      = proposedQueries gpt a1 a2 a3 a4 trip_start trip_end location ∧
    (hidden_search_for_more_ideas none gpt serpEnv a1 a2 a3 a4 trip_start trip_end location).1.search_results
      = (proposedQueries gpt a1 a2 a3 a4 trip_start trip_end location).map (fun q => (q, emptySerp)) := by
  exact ⟨rfl, rfl, rfl⟩

/-! ## Submit handler: date validation, composer freshness (claims C5, C2, C6) -/

/-- C5: a submission whose start date is strictly after its end date is
rejected at once — the session state is returned unchanged and no gatherer,
search or composer call happens; a submission with start ≤ end proceeds to
the composer. -/
theorem c5_date_check (st : AppState) (inp : SubmitInput) :
    (dateLt inp.end_date inp.start_date →
      submit st inp =
        { state := st, gatherCalls := 0, serpCalls := 0, composeCalls := 0,
          usedSearchData := none, outcome := SubmitOutcome.dateError }) ∧
    (¬ dateLt inp.end_date inp.start_date →
      (submit st inp).outcome ≠ SubmitOutcome.dateError ∧
      (submit st inp).composeCalls = 1) := by
  constructor
  · intro h
    simp [submit, h]
  · intro h
    unfold submit
    rw [if_neg h]
    split <;> simp

/-- C5 witness: with start 2025-03-10 and end 2025-03-05 the submission is
rejected outright; with the dates swapped it proceeds. -/
theorem c5_date_check_witness :
    (submit { cached_search_data := [], itinerary_text := none }
        { a1 := "a", a2 := "b", a3 := "c", a4 := "Hotel",
          start_date := ⟨2025, 3, 10⟩, end_date := ⟨2025, 3, 5⟩,
          location := "Maui, Hawaii", serpKey := none, gpt := fun _ => none,
          serpEnv := fun _ _ => none, llm := fun _ => none } =
      { state := { cached_search_data := [], itinerary_text := none },
        gatherCalls := 0, serpCalls := 0, composeCalls := 0,
        usedSearchData := none, outcome := SubmitOutcome.dateError }) ∧
    ((submit { cached_search_data := [], itinerary_text := none }
        { a1 := "a", a2 := "b", a3 := "c", a4 := "Hotel",
          start_date := ⟨2025, 3, 5⟩, end_date := ⟨2025, 3, 10⟩,
          location := "Maui, Hawaii", serpKey := none, gpt := fun _ => none,
          serpEnv := fun _ _ => none, llm := fun _ => none }).outcome
      ≠ SubmitOutcome.dateError) := by
  constructor
  · exact (c5_date_check _ _).1 (by decide)
  · exact ((c5_date_check _ _).2 (by decide)).1

/-- C2: every submission that passes the date check invokes the composer
exactly once, cache hit or not, and the stored itinerary text is exactly
the fresh composer output (or the previous text, when the composer failed)
— it is never served from any cache. -/
theorem c2_composer_never_cached (st : AppState) (inp : SubmitInput)
    (h : ¬ dateLt inp.end_date inp.start_date) :
    (submit st inp).composeCalls = 1 ∧
    (submit st inp).usedSearchData = some (submitSearchData st inp) ∧
    (submit st inp).state.itinerary_text =
      (match generate_itinerary inp.llm (pstrip inp.a1) (pstrip inp.a2) (pstrip inp.a3)
          (pstrip inp.a4) inp.start_date inp.end_date (pstrip inp.location)
          (submitSearchData st inp) with
       | some t => some t
       | none => st.itinerary_text) := by
  unfold submit
  rw [if_neg h]
  split <;> simp_all

/-- C2 witness: a concrete valid submission with a successful composer
call. -/
theorem c2_composer_never_cached_witness :
    (submit { cached_search_data := [], itinerary_text := none }
        { a1 := "a", a2 := "b", a3 := "c", a4 := "Hotel",
          start_date := ⟨2025, 3, 5⟩, end_date := ⟨2025, 3, 10⟩,
          location := "Maui, Hawaii", serpKey := none, gpt := fun _ => none,
          serpEnv := fun _ _ => none, llm := fun _ => some "PLAN" }).composeCalls = 1 := by
  exact (c2_composer_never_cached _ _ (by decide)).1

/-- C6: when the language-model call raises, the composer returns `None`
(never propagates), and the caller keeps the previously stored itinerary
text, ending in the error branch. -/
theorem c6_composer_failure_preserves_text (st : AppState) (inp : SubmitInput)
    (hllm : ∀ p, inp.llm p = none) (hd : ¬ dateLt inp.end_date inp.start_date) :
    (∀ a1 a2 a3 a4 ts te loc d,
      generate_itinerary inp.llm a1 a2 a3 a4 ts te loc d = none) ∧
    (submit st inp).state.itinerary_text = st.itinerary_text ∧
    (submit st inp).outcome = SubmitOutcome.composeError := by
  have hgen : ∀ a1 a2 a3 a4 ts te loc d,
      generate_itinerary inp.llm a1 a2 a3 a4 ts te loc d = none := by
    intro a1 a2 a3 a4 ts te loc d
    unfold generate_itinerary
    rw [hllm]
  refine ⟨hgen, ?_⟩
  unfold submit
  rw [if_neg hd, hgen]
  simp

/-- C6 witness: a concrete valid submission with a failing language model
keeps the stored itinerary text `some "OLD"`. -/
theorem c6_composer_failure_preserves_text_witness :
    (submit { cached_search_data := [], itinerary_text := some "OLD" }
        { a1 := "a", a2 := "b", a3 := "c", a4 := "Hotel",
          start_date := ⟨2025, 3, 5⟩, end_date := ⟨2025, 3, 10⟩,
          location := "Maui, Hawaii", serpKey := none, gpt := fun _ => none,
          serpEnv := fun _ _ => none, llm := fun _ => none }).state.itinerary_text
      = some "OLD" := by
  exact (c6_composer_failure_preserves_text _ _ (fun _ => rfl) (by decide)).2.1

/-! ## Memoization of the gatherer (claim C1) -/

/-- A key found in an association list is still found after appending. -/
lemma klookup_append_of_some (k : UserKey) (l l' : List (UserKey × SearchData))
    (v : SearchData) (h : klookup k l = some v) :
    klookup k (l ++ l') = some v := by
  induction l with
  | nil => cases h
  | cons kv rest ih =>
    obtain ⟨k', v'⟩ := kv
    rw [List.cons_append]
    by_cases hk : k' = k
    · rw [klookup, if_pos hk] at h
      rw [klookup, if_pos hk]
      exact h
    · rw [klookup, if_neg hk] at h
      rw [klookup, if_neg hk]
      exact ih h

/-- Appending a fresh binding makes its key found. -/
lemma klookup_append_self (k : UserKey) (l : List (UserKey × SearchData))
    (v : SearchData) (h : klookup k l = none) :
    klookup k (l ++ [(k, v)]) = some v := by
  induction l with
  | nil => simp [klookup]
  | cons kv rest ih =>
    obtain ⟨k', v'⟩ := kv
    rw [List.cons_append]
    by_cases hk : k' = k
    · rw [klookup, if_pos hk] at h
      cases h
    · rw [klookup, if_neg hk] at h
      rw [klookup, if_neg hk]
      exact ih h

/-- `ensureCache` leaves every present binding untouched. -/
lemma ensureCache_preserves (st : AppState) (inp : SubmitInput) (k : UserKey)
    (v : SearchData) (h : klookup k st.cached_search_data = some v) :
    klookup k (ensureCache st inp).1 = some v := by
  unfold ensureCache
  cases hx : klookup (submitKey inp) st.cached_search_data with
  | some _ => simpa using h
  | none => simpa using klookup_append_of_some k _ _ v h

/-- After `ensureCache`, the key of the submission is always bound. -/
lemma ensureCache_binds (st : AppState) (inp : SubmitInput) :
    ∃ v, klookup (submitKey inp) (ensureCache st inp).1 = some v := by
  unfold ensureCache
  cases hx : klookup (submitKey inp) st.cached_search_data with
  | some v => exact ⟨v, by simpa using hx⟩
  | none =>
    exact ⟨_, klookup_append_self (submitKey inp) _ _ hx⟩

/-- On a cache hit, `ensureCache` runs nothing: no gatherer invocation, no
search request, unchanged cache. -/
lemma ensureCache_hit (st : AppState) (inp : SubmitInput) (v : SearchData)
    (h : klookup (submitKey inp) st.cached_search_data = some v) :
    ensureCache st inp = (st.cached_search_data, 0, 0) := by
  unfold ensureCache
  rw [h]

/-- The gatherer runs at most once within one submission. -/
lemma submit_gatherCalls_le_one (st : AppState) (inp : SubmitInput) :
    (submit st inp).gatherCalls ≤ 1 := by
  unfold submit
  by_cases hd : dateLt inp.end_date inp.start_date
  · simp [hd]
  · rw [if_neg hd]
    have : (ensureCache st inp).2.1 ≤ 1 := by
      unfold ensureCache
      cases klookup (submitKey inp) st.cached_search_data <;> simp
    split <;> simpa

/-- A submission never removes a cache binding. -/
lemma submit_preserves_binding (st : AppState) (inp : SubmitInput) (k : UserKey)
    (v : SearchData) (h : klookup k st.cached_search_data = some v) :
    klookup k (submit st inp).state.cached_search_data = some v := by
  unfold submit
  by_cases hd : dateLt inp.end_date inp.start_date
  · simpa [hd] using h
  · rw [if_neg hd]
    split <;> simpa using ensureCache_preserves st inp k v h

/-- No sequence of submissions removes a cache binding. -/
lemma runSubmits_preserves_binding (reqs : List SubmitInput) (st : AppState)
    (k : UserKey) (v : SearchData) (h : klookup k st.cached_search_data = some v) :
    klookup k (runSubmits st reqs).cached_search_data = some v := by
  induction reqs generalizing st with
  | nil => exact h
  | cons r rest ih =>
    exact ih _ (submit_preserves_binding st r k v h)

/-- A valid submission ends with its own key bound to exactly the search
data it used. -/
lemma submit_stores (st : AppState) (inp : SubmitInput)
    (hd : ¬ dateLt inp.end_date inp.start_date) :
    ∃ v, (submit st inp).usedSearchData = some v ∧
      klookup (submitKey inp) (submit st inp).state.cached_search_data = some v := by
  obtain ⟨v, hv⟩ := ensureCache_binds st inp
  refine ⟨v, ?_⟩
  unfold submit
  rw [if_neg hd]
  have hsd : submitSearchData st inp = v := by
    unfold submitSearchData
    rw [hv]
    rfl
  split <;> simp [hsd, hv]

/-- On a hit of its own key, a submission invokes no gatherer and no search
request, and uses the bound value. -/
lemma submit_hit (st : AppState) (inp : SubmitInput) (v : SearchData)
    (h : klookup (submitKey inp) st.cached_search_data = some v)
    (hd : ¬ dateLt inp.end_date inp.start_date) :
    (submit st inp).gatherCalls = 0 ∧ (submit st inp).serpCalls = 0 ∧
    (submit st inp).usedSearchData = some v := by
  have he := ensureCache_hit st inp v h
  have hsd : submitSearchData st inp = v := by
    unfold submitSearchData
    rw [he]
    simpa using congrArg (Option.getD · { search_queries := [], search_results := [] }) h
  unfold submit
  rw [if_neg hd]
  split <;> simp [he, hsd]

/-- C1: across one session, for a fixed input tuple the gatherer runs at
most once: the first submission runs it at most once (caching its value),
and any later identical submission — after arbitrary intervening
submissions — runs it zero times, issues zero search requests, and hands
the composer the very value the first submission used. -/
theorem c1_supplemental_search_memoized (st : AppState) (inp : SubmitInput)
    (others : List SubmitInput) :
    (submit st inp).gatherCalls ≤ 1 ∧
    (submit (runSubmits (submit st inp).state others) inp).gatherCalls = 0 ∧
    (submit (runSubmits (submit st inp).state others) inp).serpCalls = 0 ∧
    (submit (runSubmits (submit st inp).state others) inp).usedSearchData
      = (submit st inp).usedSearchData := by
  refine ⟨submit_gatherCalls_le_one st inp, ?_⟩
  by_cases hd : dateLt inp.end_date inp.start_date
  · have hsub : ∀ s : AppState, submit s inp =
        { state := s, gatherCalls := 0, serpCalls := 0, composeCalls := 0,
          usedSearchData := none, outcome := SubmitOutcome.dateError } := by
      intro s
      simp [submit, hd]
    simp [hsub]
  · obtain ⟨v, hused, hbound⟩ := submit_stores st inp hd
    have hpres := runSubmits_preserves_binding others _ _ _ hbound
    obtain ⟨hg, hs, hu⟩ := submit_hit _ inp v hpres hd
    exact ⟨hg, hs, by rw [hu, hused]⟩

/-! ## Cache-key normalization (claim C10) -/

/-- Dropping again after dropping changes nothing. -/
lemma dropWhile_dropWhile (p : Char → Bool) (l : List Char) :
    List.dropWhile p (List.dropWhile p l) = List.dropWhile p l := by
  induction l with
  | nil => rfl
  | cons a t ih =>
    by_cases h : p a
    · simp [List.dropWhile, h, ih]
    · simp [List.dropWhile, h]

/-- A list fixed by `dropWhile` stays fixed on each of its prefixes. -/
lemma dropWhile_eq_self_of_front (p : Char → Bool) (l l' : List Char)
    (hp : l' <+: l) (h : List.dropWhile p l = l) :
    List.dropWhile p l' = l' := by
  cases l' with
  | nil => rfl
  | cons a t =>
    obtain ⟨r, hr⟩ := hp
    subst hr
    by_cases ha : p a
    · exfalso
      have h1 : List.dropWhile p (a :: t ++ r) = List.dropWhile p (t ++ r) := by
        simp [List.dropWhile, ha]
      have h2 : (List.dropWhile p (t ++ r)).length ≤ (t ++ r).length :=
        (List.dropWhile_suffix p).length_le
      rw [h1] at h
      have h3 := congrArg List.length h
      have h4 : (a :: t ++ r).length = (t ++ r).length + 1 := by simp
      omega
    · simp [List.dropWhile, ha]

/-- Right-stripping yields a prefix of the original list. -/
lemma rstripL_front (l : List Char) : rstripL l <+: l := by
  unfold rstripL
  have hs : List.dropWhile isPySpace l.reverse <:+ l.reverse :=
    List.dropWhile_suffix _
  obtain ⟨r, hr⟩ := hs
  refine ⟨r.reverse, ?_⟩
  have := congrArg List.reverse hr
  simpa using this

/-- Left-stripping is idempotent. -/
lemma lstripL_idem (l : List Char) : lstripL (lstripL l) = lstripL l :=
  dropWhile_dropWhile isPySpace l

/-- Right-stripping is idempotent. -/
lemma rstripL_idem (l : List Char) : rstripL (rstripL l) = rstripL l := by
  unfold rstripL
  rw [List.reverse_reverse, dropWhile_dropWhile]

/-- Python `strip` is idempotent. -/
lemma pstrip_idem (s : String) : pstrip (pstrip s) = pstrip s := by
  unfold pstrip
  have hdata : (String.mk (rstripL (lstripL s.data))).data = rstripL (lstripL s.data) := rfl
  rw [hdata]
  have hfix : List.dropWhile isPySpace (lstripL s.data) = lstripL s.data :=
    lstripL_idem s.data
  have hlfix : lstripL (rstripL (lstripL s.data)) = rstripL (lstripL s.data) :=
    dropWhile_eq_self_of_front isPySpace (lstripL s.data) _
      (rstripL_front (lstripL s.data)) hfix
  rw [hlfix, rstripL_idem]

/-- C10: the cache key is built from whitespace-stripped answers and
location (and stringified dates): it is idempotent under stripping its
string inputs, and two submissions whose answers and location agree up to
leading/trailing whitespace share one key (hence one cache entry). -/
theorem c10_key_strip_normalized (a1 a2 a3 a4 b1 b2 b3 b4 loc loc' : String)
    (sd ed : Date) :
    mkKey (pstrip a1) (pstrip a2) (pstrip a3) (pstrip a4) sd ed (pstrip loc)
      = mkKey a1 a2 a3 a4 sd ed loc ∧
    (pstrip a1 = pstrip b1 → pstrip a2 = pstrip b2 → pstrip a3 = pstrip b3 →
      pstrip a4 = pstrip b4 → pstrip loc = pstrip loc' →
      mkKey a1 a2 a3 a4 sd ed loc = mkKey b1 b2 b3 b4 sd ed loc') := by
  constructor
  · unfold mkKey
    rw [pstrip_idem, pstrip_idem, pstrip_idem, pstrip_idem, pstrip_idem]
  · intro h1 h2 h3 h4 h5
    unfold mkKey
    rw [h1, h2, h3, h4, h5]

/-- C10 witness: concrete answers differing only in surrounding whitespace
produce the same key. -/
theorem c10_key_strip_normalized_witness :
    mkKey "  hiking " " poke\t" "luau" " Grand Hotel" ⟨2025, 3, 5⟩ ⟨2025, 3, 10⟩ "  Maui, Hawaii "
      = mkKey "hiking" "poke" "luau " "Grand Hotel  " ⟨2025, 3, 5⟩ ⟨2025, 3, 10⟩ "Maui, Hawaii" := by
  exact (c10_key_strip_normalized "  hiking " " poke\t" "luau" " Grand Hotel"
    "hiking" "poke" "luau " "Grand Hotel  " "  Maui, Hawaii " "Maui, Hawaii"
    ⟨2025, 3, 5⟩ ⟨2025, 3, 10⟩).2 (by decide) (by decide) (by decide) (by decide) (by decide)

/-! ## RAG snippet contents (claim C8) -/

/-- Check whether the first list starts the second (character match). -/
def segAt : List Char → List Char → Bool
  | [], _ => true
  | _ :: _, [] => false
  | a :: as, b :: bs => a == b && segAt as bs

/-- Check whether the first list occurs contiguously in the second. -/
def containsSeg : List Char → List Char → Bool
  | needle, [] => needle.isEmpty
  | needle, c :: t => segAt needle (c :: t) || containsSeg needle t

/-- Overwrite the `phone` field of a local result. -/
def setPhoneItem (p : Option String) (it : LocalItem) : LocalItem :=
  { it with phone := p }

/-- Overwrite every `phone` field in a raw search result. -/
def setPhoneSerp (p : Option String) (r : SerpResult) : SerpResult :=
  { r with local_results :=
      r.local_results.map (fun lr => { places := lr.places.map (List.map (setPhoneItem p)) }) }

/-- Overwrite every `phone` field in the gathered search data. -/
def setPhones (p : Option String) (d : SearchData) : SearchData :=
  { d with search_results := d.search_results.map (fun kv => (kv.1, setPhoneSerp p kv.2)) }

/-- The bullet of a local result never reads the phone field. -/
lemma localLine_setPhone (p : Option String) (it : LocalItem) :
    localLine (setPhoneItem p it) = localLine it := rfl

/-- Lookup commutes with mapping over the values. -/
lemma slookup_map {α β : Type} (f : α → β) (k : String) (l : List (String × α)) :
    slookup k (l.map (fun kv => (kv.1, f kv.2))) = (slookup k l).map f := by
  induction l with
  | nil => rfl
  | cons kv rest ih =>
    obtain ⟨k', v⟩ := kv
    by_cases h : k' = k
    · simp [slookup, h]
    · simp [slookup, h, ih]

/-- The bullets of one query are unchanged by overwriting phone fields. -/
lemma queryLines_setPhones (p : Option String) (results : List (String × SerpResult))
    (q : String) :
    queryLines (results.map (fun kv => (kv.1, setPhoneSerp p kv.2))) q
      = queryLines results q := by
  unfold queryLines
  rw [slookup_map]
  cases hx : slookup q results with
  | none => rfl
  | some r =>
    obtain ⟨org, lr⟩ := r
    cases lr with
    | none => rfl
    | some lrr =>
      obtain ⟨pl⟩ := lrr
      cases pl with
      | none => rfl
      | some ps =>
        simp [setPhoneSerp, ← List.map_take, localLine_setPhone]

/-- The whole bullet list is unchanged by overwriting phone fields. -/
lemma ragLines_setPhones (p : Option String) (d : SearchData) :
    ragLines (setPhones p d) = ragLines d := by
  unfold ragLines setPhones
  have h : queryLines (d.search_results.map (fun kv => (kv.1, setPhoneSerp p kv.2)))
      = queryLines d.search_results :=
    funext (fun q => queryLines_setPhones p d.search_results q)
  exact congrArg _ h

/-- The RAG snippet is unchanged by overwriting phone fields: phone numbers
never reach the itinerary prompt. -/
lemma gather_rag_data_setPhones (p : Option String) (d : SearchData) :
    gather_rag_data (setPhones p d) = gather_rag_data d := by
  unfold gather_rag_data
  rw [ragLines_setPhones]
  rfl

/-- A local bullet present in the data shows up among the lines of its query. -/
lemma localLine_mem_queryLines (results : List (String × SerpResult)) (q : String)
    (data : SerpResult) (lr : LocalResults) (item : LocalItem)
    (hl : slookup q results = some data) (hlr : data.local_results = some lr)
    (hitem : item ∈ (lr.places.getD []).take 3) :
    localLine item ∈ queryLines results q := by
  unfold queryLines
  rw [hl]
  simp only [Option.getD_some]
  rw [hlr]
  exact List.mem_append_right _ (List.mem_map_of_mem localLine hitem)

/-- An organic bullet present in the data shows up among the lines of its query. -/
lemma organicLine_mem_queryLines (results : List (String × SerpResult)) (q : String)
    (data : SerpResult) (items : List OrganicItem) (item : OrganicItem)
    (hl : slookup q results = some data) (ho : data.organic_results = some items)
    (hitem : item ∈ items.take 3) :
    organicLine item ∈ queryLines results q := by
  unfold queryLines
  rw [hl]
  simp only [Option.getD_some]
  rw [ho]
  exact List.mem_append_left _ (List.mem_map_of_mem organicLine hitem)

/-- Lines of a member query are lines of the whole RAG block. -/
lemma mem_ragLines (d : SearchData) (q : String) (s : String)
    (hq : q ∈ d.search_queries) (hs : s ∈ queryLines d.search_results q) :
    s ∈ ragLines d :=
  List.mem_flatMap.mpr ⟨q, hq, hs⟩

/-- Every line of the joined block occurs contiguously in it. -/
lemma mem_joinLines_infix (s : String) (l : List String) (h : s ∈ l) :
    s.data <:+: (joinLines l).data := by
  induction l with
  | nil => cases h
  | cons a t ih =>
    cases t with
    | nil =>
      have : s = a := by simpa using h
      subst this
      exact List.infix_refl _
    | cons b u =>
      rcases List.mem_cons.mp h with rfl | hmem
      · show s.data <:+: (s ++ "\n" ++ joinLines (b :: u)).data
        rw [String.data_append, String.data_append]
        exact ((List.prefix_append s.data _).trans
          (by rw [List.append_assoc])).isInfix
      · have hin := ih hmem
        show s.data <:+: (a ++ "\n" ++ joinLines (b :: u)).data
        rw [String.data_append, String.data_append]
        have h1 : (joinLines (b :: u)).data <:+ "\n".data ++ (joinLines (b :: u)).data :=
          List.suffix_append _ _
        have h2 : "\n".data ++ (joinLines (b :: u)).data
            <:+ a.data ++ ("\n".data ++ (joinLines (b :: u)).data) :=
          List.suffix_append _ _
        rw [List.append_assoc]
        exact hin.trans (h1.trans h2).isInfix

/-- When a query exists and produced a line, the snippet is the joined
line list. -/
lemma gather_rag_data_eq_join (d : SearchData) (hq : d.search_queries ≠ [])
    (hl : ragLines d ≠ []) :
    gather_rag_data d = joinLines (ragLines d) := by
  unfold gather_rag_data
  simp [hq, hl]

/-- A sample local result carrying a phone number. -/
def phoneSampleItem : LocalItem :=
  { title := some "Cafe", rating := some "4.5", reviews := some "120",
    address := some "1 Main St", website := none, link := none,
    phone := some "808-555-0100" }

/-- A sample search-data value whose only result is a local place with a
phone number. -/
def phoneSampleData : SearchData :=
  { search_queries := ["food"],
    search_results := [("food",
      { organic_results := none,
        local_results := some { places := some [phoneSampleItem] } })] }

/-- C8 counterexample: the phone number of a local result never appears in the
RAG snippet (while its address does), so local results do not contribute
phone. -/
theorem c8_phone_counterexample :
    containsSeg "808-555-0100".data (gather_rag_data phoneSampleData).data = false ∧
    containsSeg "Address: 1 Main St".data (gather_rag_data phoneSampleData).data = true := by
  exact ⟨rfl, rfl⟩

/-- C8 (amended): the RAG snippet embedded in the itinerary prompt
contains, for every query, a flattened bullet list of up to 3 organic and
up to 3 local results per query; each organic result contributes title,
link and a 120-character-truncated snippet, each local result contributes
title, link, rating, reviews and address — and never the phone (the
snippet is invariant under the phone fields). -/
theorem c8_rag_snippet_fields (d : SearchData) (q : String) (data : SerpResult) :
    (∀ p, gather_rag_data (setPhones p d) = gather_rag_data d) ∧
    (q ∈ d.search_queries → slookup q d.search_results = some data →
      (∀ lr item, data.local_results = some lr →
        item ∈ (lr.places.getD []).take 3 →
        (localLine item).data <:+: (gather_rag_data d).data) ∧
      (∀ items item, data.organic_results = some items →
        item ∈ items.take 3 →
        (organicLine item).data <:+: (gather_rag_data d).data)) := by
  refine ⟨fun p => gather_rag_data_setPhones p d, fun hq hl => ⟨?_, ?_⟩⟩
  · intro lr item hlr hitem
    have hline := localLine_mem_queryLines d.search_results q data lr item hl hlr hitem
    have hmem := mem_ragLines d q _ hq hline
    rw [gather_rag_data_eq_join d (List.ne_nil_of_mem hq) (List.ne_nil_of_mem hmem)]
    exact mem_joinLines_infix _ _ hmem
  · intro items item ho hitem
    have hline := organicLine_mem_queryLines d.search_results q data items item hl ho hitem
    have hmem := mem_ragLines d q _ hq hline
    rw [gather_rag_data_eq_join d (List.ne_nil_of_mem hq) (List.ne_nil_of_mem hmem)]
    exact mem_joinLines_infix _ _ hmem

/-- C8 witness: on the sample data, the local bullet (title, link, rating,
reviews, address) occurs contiguously in the RAG snippet. -/
theorem c8_rag_snippet_fields_witness :
    (localLine phoneSampleItem).data <:+: (gather_rag_data phoneSampleData).data := by
  refine ((c8_rag_snippet_fields phoneSampleData "food"
      { organic_results := none,
        local_results := some { places := some [phoneSampleItem] } }).2
    (by simp [phoneSampleData]) (by decide)).1
    { places := some [phoneSampleItem] } phoneSampleItem rfl (by simp)
